import Mathlib

set_option maxRecDepth 8192

/-!
# Shallow embedding of the MonitoringSystem repository

This file embeds the pure logic of the MonitoringSystem Python repository:

* `src/analysis/resource_analyzer.py` — Kubernetes quantity parsing
  (`_parse_cpu_value`, `_parse_memory_value`), threshold classification
  (`_check_resource_status`), per-pod analysis (`analyze_resource_usage`)
  and the templated report generator (`_generate_llm_response`);
* `src/api_monitor/monitor.py` — the retry loop of `check_endpoint`;
* `src/main.py` — the scheduling of monitoring cycles via the
  `schedule` library.

Python strings are modelled as `List Char`; Python integers as `Int`
(or `Nat` where the value is a count); Python float division and the
resulting percentages as exact rationals `ℚ`; exceptions as `Option`.
-/

namespace MonitoringSystem

/-- Python strings, modelled as lists of characters. -/
abbrev PyStr := List Char

/-- Decimal value of a character when it is an ASCII digit. -/
def digitVal (c : Char) : Option Nat :=
  if c.isDigit then some (c.toNat - 48) else none

/-- Accumulator loop for decimal numeral parsing (Python `int`). -/
def parseDigitsAux : PyStr → Nat → Option Nat
  | [], acc => some acc
  | c :: cs, acc =>
    match digitVal c with
    | some d => parseDigitsAux cs (acc * 10 + d)
    | none => none

/-- Python `int(s)` on an (unsigned) decimal numeral: defined exactly on
nonempty all-digit strings; `none` models the `ValueError` exception. -/
def parseDigits : PyStr → Option Nat
  | [] => none
  | c :: cs => parseDigitsAux (c :: cs) 0

/-- Python `int(s)`, admitting a leading minus sign. -/
def pyInt (s : PyStr) : Option Int :=
  if s.head? = some '-' then (parseDigits (s.drop 1)).map (fun n => -(n : Int))
  else (parseDigits s).map (fun n => (n : Int))

/-- Python `s.endswith(t)`. -/
def pyEndsWith (s t : PyStr) : Bool := t.reverse.isPrefixOf s.reverse

/-- Python slicing `s[:-n]`: the string without its last `n` characters. -/
def dropRightN (s : PyStr) (n : Nat) : PyStr := (s.reverse.drop n).reverse

/-- Fuel-driven computation of the binary64 rounding exponent: the
least `e` with `x / 2 ^ e < 2 ^ 53`; any fuel at least the bit length
of `x` suffices, and callers pass `x` itself. -/
def floatExpAux : Nat → Nat → Nat
  | 0, _ => 0
  | fuel + 1, x => if x < 2 ^ 53 then 0 else floatExpAux fuel (x / 2) + 1

/-- The binary64 rounding exponent of a nonnegative integer. -/
def floatExp (x : Nat) : Nat := floatExpAux x x

/-- Round a nonnegative integer to the nearest IEEE-754 binary64 value
(53-bit significand, round half to even, unbounded exponent), returned
as the exact integer value of that float. -/
def roundToDouble (x : Nat) : Nat :=
  let e := floatExp x
  if e = 0 then x
  else
    let q := x / 2 ^ e
    let r := x % 2 ^ e
    let half := 2 ^ (e - 1)
    (if half < r then q + 1
     else if r < half then q
     else if q % 2 = 0 then q else q + 1) * 2 ^ e

/-- Python `int(float(s) * 1000000000)` on the integer value `i` of an
integer-valued numeral `s`: `float(s)` rounds `i` to binary64,
multiplying by the exactly representable `1000000000.0` rounds the
exact product again, and `int` truncates exactly because both floats
are integer-valued.  `none` models the `OverflowError` that `int`
raises when a rounding step overflows to infinity (magnitude `2 ^ 1024`
or more). -/
def pyIntFloatMulBillion (i : Int) : Option Int :=
  let f1 := roundToDouble i.natAbs
  if 2 ^ 1024 ≤ f1 then none
  else
    let f2 := roundToDouble (f1 * 1000000000)
    if 2 ^ 1024 ≤ f2 then none
    else some (if i < 0 then -(f2 : Int) else (f2 : Int))

/-- `_parse_cpu_value` (resource_analyzer.py lines 28-40): parse a
Kubernetes CPU quantity string to nanocores.  The bare-number branch is
Python `int(float(cpu_str) * 1000000000)`, embedded by
`pyIntFloatMulBillion` with its binary64 rounding; the embedding is
defined on integer-valued numerals, and `none` models the `ValueError`
raised on a malformed numeral (Python float syntax beyond integer
numerals is outside the modelled domain). -/
def parse_cpu_value (cpu_str : PyStr) : Option Int :=
  if cpu_str = [] then some 0
  else if pyEndsWith cpu_str ['n'] then pyInt (dropRightN cpu_str 1)
  else if pyEndsWith cpu_str ['u'] then (pyInt (dropRightN cpu_str 1)).map (· * 1000)
  else if pyEndsWith cpu_str ['m'] then (pyInt (dropRightN cpu_str 1)).map (· * 1000000)
  else (pyInt cpu_str).bind pyIntFloatMulBillion

/-- `_parse_memory_value` (resource_analyzer.py lines 42-60): parse a
Kubernetes memory quantity string to bytes. -/
def parse_memory_value (memory_str : PyStr) : Option Int :=
  if memory_str = [] then some 0
  else if pyEndsWith memory_str ['K', 'i'] then (pyInt (dropRightN memory_str 2)).map (· * 1024)
  else if pyEndsWith memory_str ['M', 'i'] then (pyInt (dropRightN memory_str 2)).map (· * (1024 * 1024))
  else if pyEndsWith memory_str ['G', 'i'] then (pyInt (dropRightN memory_str 2)).map (· * (1024 * 1024 * 1024))
  else if pyEndsWith memory_str ['K'] || pyEndsWith memory_str ['k'] then (pyInt (dropRightN memory_str 1)).map (· * 1000)
  else if pyEndsWith memory_str ['M'] || pyEndsWith memory_str ['m'] then (pyInt (dropRightN memory_str 1)).map (· * (1000 * 1000))
  else if pyEndsWith memory_str ['G'] || pyEndsWith memory_str ['g'] then (pyInt (dropRightN memory_str 1)).map (· * (1000 * 1000 * 1000))
  else pyInt memory_str

/-- Python `f"{x:.1f}"`.  The source formats (binary) floats; the
embedding renders the exact rational rounded to one decimal place. -/
def formatFixed1 (q : ℚ) : String :=
  let n : Int := round (q * 10)
  let sign := if n < 0 then "-" else ""
  let m := n.natAbs
  sign ++ toString (m / 10) ++ "." ++ toString (m % 10)

/-- Python `s.upper()` (ASCII behaviour). -/
def pyUpper (s : String) : String := s.map Char.toUpper

/-- The displayed magnitude used in analysis strings:
`usage/1000000 if resource_type == 'cpu' else usage/1024/1024`. -/
def usageDisplayVal (resource_type : String) (x : Int) : ℚ :=
  if resource_type = "cpu" then (x : ℚ) / 1000000 else (x : ℚ) / 1024 / 1024

/-- The displayed unit: `'m' if resource_type == 'cpu' else 'Mi'`. -/
def unitSuffix (resource_type : String) : String :=
  if resource_type = "cpu" then "m" else "Mi"

/-- The OVERFLOW analysis text of `_check_resource_status` (lines 148-157). -/
def overflowAnalysis (resource_type : String) (usage high_threshold : Int)
    (utilization_percentage : ℚ) : String :=
  "HIGH " ++ pyUpper resource_type ++ " USAGE DETECTED: " ++
  "The container is using " ++ formatFixed1 utilization_percentage ++
  "% of its requested " ++ resource_type ++ " " ++
  "(" ++ formatFixed1 (usageDisplayVal resource_type usage) ++ unitSuffix resource_type ++ "). " ++
  "This exceeds the high threshold of " ++
  formatFixed1 (usageDisplayVal resource_type high_threshold) ++ unitSuffix resource_type ++ " " ++
  "and may indicate a " ++ resource_type ++ " leak or inefficient resource usage pattern. " ++
  "Consider investigating application behavior or increasing the resource limits."

/-- The UNDERFLOW analysis text of `_check_resource_status` (lines 160-168). -/
def underflowAnalysis (resource_type : String) (usage low_threshold : Int)
    (utilization_percentage : ℚ) : String :=
  "LOW " ++ pyUpper resource_type ++ " USAGE DETECTED: " ++
  "The container is only using " ++ formatFixed1 utilization_percentage ++
  "% of its requested " ++ resource_type ++ " " ++
  "(" ++ formatFixed1 (usageDisplayVal resource_type usage) ++ unitSuffix resource_type ++ "). " ++
  "This is below the low threshold of " ++
  formatFixed1 (usageDisplayVal resource_type low_threshold) ++ unitSuffix resource_type ++ " " ++
  "and may indicate over-provisioning. Consider reducing resource requests to " ++
  "improve cluster utilization efficiency."

/-- The NORMAL analysis text of `_check_resource_status` (lines 172-177). -/
def normalAnalysis (resource_type : String) (usage : Int)
    (utilization_percentage : ℚ) : String :=
  "NORMAL " ++ pyUpper resource_type ++ " USAGE: " ++
  "The container is using " ++ formatFixed1 utilization_percentage ++
  "% of its requested " ++ resource_type ++ " " ++
  "(" ++ formatFixed1 (usageDisplayVal resource_type usage) ++ unitSuffix resource_type ++ "), " ++
  "which is within expected parameters."

/-- `_check_resource_status` (resource_analyzer.py lines 133-180):
returns `(status, utilization_percentage, analysis)`.  The `limit`
parameter is accepted and, as in the source, never used in the body. -/
def check_resource_status (resource_type : String)
    (usage high_threshold low_threshold request limit : Int) : String × ℚ × String :=
  let utilization_percentage : ℚ :=
    if request > 0 then ((usage : ℚ) / (request : ℚ)) * 100 else 0
  if usage ≥ high_threshold then
    ("OVERFLOW", utilization_percentage,
      overflowAnalysis resource_type usage high_threshold utilization_percentage)
  else if usage ≤ low_threshold then
    ("UNDERFLOW", utilization_percentage,
      underflowAnalysis resource_type usage low_threshold utilization_percentage)
  else
    ("NORMAL", utilization_percentage,
      normalAnalysis resource_type usage utilization_percentage)

/-- Per-resource threshold record (the inner dicts of `self.thresholds`). -/
structure ResourceThresholds where
  high : Int
  low : Int
  request : Int
  limit : Int
deriving DecidableEq

/-- The `self.thresholds` table. -/
structure Thresholds where
  cpu : ResourceThresholds
  memory : ResourceThresholds
deriving DecidableEq

/-- The state of a `ResourceAnalyzer` object: the only attribute the
class stores is `self.thresholds`. -/
structure ResourceAnalyzer where
  thresholds : Thresholds
deriving DecidableEq

/-- `ResourceAnalyzer.__init__` (lines 8-26): the `config` argument is
accepted and ignored; the threshold table is hard-coded. -/
def ResourceAnalyzer.init {α : Type} (config : α) : ResourceAnalyzer :=
  { thresholds :=
    { cpu := { high := 20000000, low := 5000000, request := 12000000, limit := 25000000 },
      memory := { high := 25 * 1024 * 1024, low := 10 * 1024 * 1024,
                  request := 20 * 1024 * 1024, limit := 40 * 1024 * 1024 } } }

/-- The hard-coded threshold table of `ResourceAnalyzer.__init__`. -/
def builtinThresholds : Thresholds :=
  (ResourceAnalyzer.init ()).thresholds

/-- The per-container metrics dict: the `cpu` and `memory` keys may be
absent (`container_metrics.get` defaults them to `'0'`). -/
structure ContainerMetrics where
  cpu : Option PyStr
  memory : Option PyStr
deriving DecidableEq

/-- One element of the `pod_metrics` list: a pod name and its
`containers` dict, modelled as an association list in insertion order. -/
structure PodMetric where
  name : String
  containers : List (String × ContainerMetrics)
deriving DecidableEq

/-- One of the two per-resource analysis records stored under
`container_analysis['cpu']` / `container_analysis['memory']`. -/
structure ResourceReport where
  usage : Int
  status : String
  utilization_percentage : ℚ
  analysis : String
deriving DecidableEq

/-- The `container_analysis` record built in `analyze_resource_usage`. -/
structure ContainerAnalysis where
  cpu : ResourceReport
  memory : ResourceReport
deriving DecidableEq

/-- Python dict assignment `d[k] = v` on a dict modelled as an
association list: overwrites in place if the key exists (keeping its
position), otherwise appends. -/
def dictInsert {α : Type} (k : String) (v : α) : List (String × α) → List (String × α)
  | [] => [(k, v)]
  | (k₂, v₂) :: rest => if k₂ = k then (k, v) :: rest else (k₂, v₂) :: dictInsert k v rest

/-- The per-container body of `analyze_resource_usage` (lines 70-109):
parse both quantities (defaulting absent keys to `'0'`), classify each
against the thresholds, and build the `container_analysis` record.
`none` models a `ValueError` escaping from the parsers. -/
def analyzeContainer (t : Thresholds) (container_metrics : ContainerMetrics) :
    Option ContainerAnalysis :=
  match parse_cpu_value (container_metrics.cpu.getD ['0']),
        parse_memory_value (container_metrics.memory.getD ['0']) with
  | some cpu_usage, some memory_usage =>
    let cpu_status :=
      check_resource_status "cpu" cpu_usage t.cpu.high t.cpu.low t.cpu.request t.cpu.limit
    let memory_status :=
      check_resource_status "memory" memory_usage t.memory.high t.memory.low
        t.memory.request t.memory.limit
    some
      { cpu := { usage := cpu_usage, status := cpu_status.1,
                 utilization_percentage := cpu_status.2.1, analysis := cpu_status.2.2 },
        memory := { usage := memory_usage, status := memory_status.1,
                    utilization_percentage := memory_status.2.1, analysis := memory_status.2.2 } }
  | _, _ => none

/-- The inner `for container_name, container_metrics in ...` loop of
`analyze_resource_usage`, accumulating `pod_results['containers']`. -/
def analyzeContainers (t : Thresholds) :
    List (String × ContainerMetrics) → List (String × ContainerAnalysis) →
    Option (List (String × ContainerAnalysis))
  | [], acc => some acc
  | (container_name, m) :: rest, acc =>
    match analyzeContainer t m with
    | some a => analyzeContainers t rest (dictInsert container_name a acc)
    | none => none

/-- The value stored under `results[pod_name]`: the per-pod
containers dict. -/
abbrev PodResult := List (String × ContainerAnalysis)

/-- The outer `for pod_metric in pod_metrics` loop of
`analyze_resource_usage`, accumulating `results`.  The second inner
loop of the source only generates and logs the textual reports
(side effects on log files); it does not change `results`. -/
def analyzePods (t : Thresholds) :
    List PodMetric → List (String × PodResult) → Option (List (String × PodResult))
  | [], acc => some acc
  | pod :: rest, acc =>
    match analyzeContainers t pod.containers [] with
    | some pod_containers => analyzePods t rest (dictInsert pod.name pod_containers acc)
    | none => none

/-- `analyze_resource_usage` (resource_analyzer.py lines 62-131):
returns the `results` dict, keyed by pod name. -/
def analyze_resource_usage (t : Thresholds) (pod_metrics : List PodMetric) :
    Option (List (String × PodResult)) :=
  analyzePods t pod_metrics []

/-- The stateful method view of `analyze_resource_usage`: the method
only reads `self.thresholds` and never assigns any attribute, so the
object state is returned unchanged. -/
def ResourceAnalyzer.analyzeMethod (a : ResourceAnalyzer) (pod_metrics : List PodMetric) :
    ResourceAnalyzer × Option (List (String × PodResult)) :=
  (a, analyze_resource_usage a.thresholds pod_metrics)

/-- Template of `_generate_llm_response` when both statuses are
OVERFLOW (lines 196-203). -/
def respBothOverflow (pod_name container_name cpu_analysis memory_analysis : String) : String :=
  "⚠️ CRITICAL RESOURCE ALERT: Pod " ++ pod_name ++ ", Container " ++ container_name ++ "\n\n" ++
  "Both CPU and memory usage have exceeded high thresholds, indicating potential resource exhaustion.\n\n" ++
  cpu_analysis ++ "\n\n" ++ memory_analysis ++ "\n\n" ++
  "RECOMMENDATION: This container appears to be under significant load or experiencing a resource leak. " ++
  "Consider immediate investigation of application behavior, possibly scaling horizontally, " ++
  "and increasing resource limits if this usage pattern is expected."

/-- Template of `_generate_llm_response` for CPU OVERFLOW (lines 205-211). -/
def respCpuOverflow (pod_name container_name cpu_analysis memory_analysis : String) : String :=
  "⚠️ CPU USAGE ALERT: Pod " ++ pod_name ++ ", Container " ++ container_name ++ "\n\n" ++
  cpu_analysis ++ "\n\n" ++ memory_analysis ++ "\n\n" ++
  "RECOMMENDATION: Investigate application CPU usage patterns. If this is expected behavior during peak loads, " ++
  "consider increasing CPU limits or implementing autoscaling. If unexpected, check for CPU-intensive operations " ++
  "or infinite loops that might be consuming excessive resources."

/-- Template of `_generate_llm_response` for memory OVERFLOW (lines 213-219). -/
def respMemoryOverflow (pod_name container_name cpu_analysis memory_analysis : String) : String :=
  "⚠️ MEMORY USAGE ALERT: Pod " ++ pod_name ++ ", Container " ++ container_name ++ "\n\n" ++
  memory_analysis ++ "\n\n" ++ cpu_analysis ++ "\n\n" ++
  "RECOMMENDATION: Check for memory leaks or unexpected caching behavior. Consider using memory profiling tools " ++
  "to identify memory usage patterns. If this is expected behavior for your workload, increase memory limits " ++
  "to prevent potential OOM (Out of Memory) kills."

/-- Template of `_generate_llm_response` when both statuses are
UNDERFLOW (lines 221-228). -/
def respBothUnderflow (pod_name container_name cpu_analysis memory_analysis : String) : String :=
  "ℹ️ RESOURCE UNDERUTILIZATION NOTICE: Pod " ++ pod_name ++ ", Container " ++ container_name ++ "\n\n" ++
  "Both CPU and memory usage are significantly below requested resources.\n\n" ++
  cpu_analysis ++ "\n\n" ++ memory_analysis ++ "\n\n" ++
  "RECOMMENDATION: The container is overprovisioned. Consider reducing CPU and memory requests " ++
  "to improve cluster resource efficiency. For cost optimization, these resources could be better " ++
  "allocated to other workloads."

/-- Template of `_generate_llm_response` for CPU UNDERFLOW (lines 230-235). -/
def respCpuUnderflow (pod_name container_name cpu_analysis memory_analysis : String) : String :=
  "ℹ️ CPU UNDERUTILIZATION NOTICE: Pod " ++ pod_name ++ ", Container " ++ container_name ++ "\n\n" ++
  cpu_analysis ++ "\n\n" ++ memory_analysis ++ "\n\n" ++
  "RECOMMENDATION: The container has excess CPU capacity. Consider reducing CPU requests " ++
  "to better match actual usage patterns and improve overall cluster CPU utilization."

/-- Template of `_generate_llm_response` for memory UNDERFLOW (lines 237-242). -/
def respMemoryUnderflow (pod_name container_name cpu_analysis memory_analysis : String) : String :=
  "ℹ️ MEMORY UNDERUTILIZATION NOTICE: Pod " ++ pod_name ++ ", Container " ++ container_name ++ "\n\n" ++
  memory_analysis ++ "\n\n" ++ cpu_analysis ++ "\n\n" ++
  "RECOMMENDATION: The container has excess memory allocation. Consider reducing memory requests " ++
  "to better align with actual usage patterns. This could improve cluster memory efficiency."

/-- Fallback template of `_generate_llm_response` (lines 244-250). -/
def respHealthy (pod_name container_name cpu_analysis memory_analysis : String) : String :=
  "✅ HEALTHY RESOURCE UTILIZATION: Pod " ++ pod_name ++ ", Container " ++ container_name ++ "\n\n" ++
  "Both CPU and memory usage are within normal operational parameters.\n\n" ++
  cpu_analysis ++ "\n\n" ++ memory_analysis ++ "\n\n" ++
  "RECOMMENDATION: No action needed. Resource allocation appears to be appropriately sized " ++
  "for the current workload."

/-- `_generate_llm_response` (resource_analyzer.py lines 182-250): the
if/elif template chooser. -/
def generate_llm_response (pod_name container_name : String)
    (container_analysis : ContainerAnalysis) : String :=
  let cpu_status := container_analysis.cpu.status
  let memory_status := container_analysis.memory.status
  let cpu_analysis := container_analysis.cpu.analysis
  let memory_analysis := container_analysis.memory.analysis
  if cpu_status = "OVERFLOW" ∧ memory_status = "OVERFLOW" then
    respBothOverflow pod_name container_name cpu_analysis memory_analysis
  else if cpu_status = "OVERFLOW" then
    respCpuOverflow pod_name container_name cpu_analysis memory_analysis
  else if memory_status = "OVERFLOW" then
    respMemoryOverflow pod_name container_name cpu_analysis memory_analysis
  else if cpu_status = "UNDERFLOW" ∧ memory_status = "UNDERFLOW" then
    respBothUnderflow pod_name container_name cpu_analysis memory_analysis
  else if cpu_status = "UNDERFLOW" then
    respCpuUnderflow pod_name container_name cpu_analysis memory_analysis
  else if memory_status = "UNDERFLOW" then
    respMemoryUnderflow pod_name container_name cpu_analysis memory_analysis
  else
    respHealthy pod_name container_name cpu_analysis memory_analysis

/-! ## `ApiMonitor.check_endpoint` (api_monitor/monitor.py lines 16-71)

One attempt of the retry loop either yields an HTTP response (a status
code and a measured response time) or raises one of the caught
exceptions.  Wall-clock effects (`time.time`, `time.sleep`, the
`timestamp` field) are modelled only through the returned response
time and the count of sleeps performed. -/

/-- The outcome of one `requests.request` attempt. -/
inductive AttemptOutcome where
  | ok (status_code : Nat) (response_time_ms : ℚ)
  | timeoutErr
  | connectionErr
  | otherErr (msg : String)
deriving DecidableEq

/-- The mutable fields of the `result` dict that the retry loop
updates (`url`, `method` and `timestamp` are copied-in metadata and
never touched by the loop). -/
structure EndpointResult where
  success : Bool
  status_code : Option Nat
  response_time : Option ℚ
  error : Option String
deriving DecidableEq

/-- The `result` dict as initialised on lines 25-33. -/
def initEndpointResult : EndpointResult :=
  { success := false, status_code := none, response_time := none, error := none }

/-- The error message the loop records for a non-matching attempt
(`none` for a matching one): lines 52, 55, 57, 59. -/
def failError (expected : Nat) : AttemptOutcome → Option String
  | .ok sc _ => if sc = expected then none else some ("Unexpected status code: " ++ toString sc)
  | .timeoutErr => some "Request timed out"
  | .connectionErr => some "Connection error"
  | .otherErr m => some m

/-- Does an attempt outcome carry the expected status code? -/
def isMatch (expected : Nat) : AttemptOutcome → Bool
  | .ok sc _ => sc == expected
  | _ => false

/-- The `for attempt in range(self.retries)` loop (lines 35-63), run on
the list of remaining attempt outcomes.  Returns the final `result`
together with the number of attempts made and the number of
`time.sleep(1)` calls executed; the `attempt < self.retries - 1` guard
of the sleep is equivalent to the remaining-attempts list being
nonempty. -/
def checkLoop (expected : Nat) : List AttemptOutcome → EndpointResult →
    EndpointResult × Nat × Nat
  | [], r => (r, 0, 0)
  | out :: rest, r =>
    match out with
    | .ok sc rt =>
      let r1 : EndpointResult := { r with response_time := some rt, status_code := some sc }
      if sc = expected then
        ({ r1 with success := true }, 1, 0)
      else
        let p := checkLoop expected rest
          { r1 with error := some ("Unexpected status code: " ++ toString sc) }
        (p.1, p.2.1 + 1, p.2.2 + (if rest = [] then 0 else 1))
    | .timeoutErr =>
      let p := checkLoop expected rest { r with error := some "Request timed out" }
      (p.1, p.2.1 + 1, p.2.2 + (if rest = [] then 0 else 1))
    | .connectionErr =>
      let p := checkLoop expected rest { r with error := some "Connection error" }
      (p.1, p.2.1 + 1, p.2.2 + (if rest = [] then 0 else 1))
    | .otherErr m =>
      let p := checkLoop expected rest { r with error := some m }
      (p.1, p.2.1 + 1, p.2.2 + (if rest = [] then 0 else 1))

/-- `check_endpoint` for an endpoint with expected status `expected`
under an environment `outcomes` giving the outcome of each attempt:
the loop body runs for attempts `0, ..., retries - 1`. -/
def check_endpoint (retries expected : Nat) (outcomes : Nat → AttemptOutcome) :
    EndpointResult × Nat × Nat :=
  checkLoop expected ((List.range retries).map outcomes) initEndpointResult

/-! ## `main` (main.py lines 89-103) and the `schedule` library

`main` runs one monitoring cycle immediately (line 94), registers a
single job `schedule.every(interval).seconds.do(run_monitoring_cycle,...)`
(line 97) and then loops `schedule.run_pending(); time.sleep(1)`
(lines 101-103).  Time is modelled in whole seconds, the cycle itself
as instantaneous.  Per the `schedule` library, a job registered at
time 0 with period `interval` has `next_run = interval`; `run_pending`
at time `t` runs the job iff `t ≥ next_run` and then sets
`next_run = t + interval`. -/

/-- A job registered with the `schedule` library. -/
structure ScheduledJob where
  interval : Nat
deriving DecidableEq

/-- The job registry `main` builds on line 97: exactly one job, the
monitoring cycle, every `interval` seconds. -/
def mainScheduledJobs (interval : Nat) : List ScheduledJob := [⟨interval⟩]

/-- The value of `next_run` for the job after the loop has processed seconds
`1, ..., t` (the job is registered at second 0). -/
def nextRunAfter (interval : Nat) : Nat → Nat
  | 0 => interval
  | t + 1 =>
    let nr := nextRunAfter interval t
    if nr ≤ t + 1 then (t + 1) + interval else nr

/-- Whether a monitoring cycle runs at second `t`: at second 0 the
cycle is invoked directly (line 94); at later seconds it runs iff
`schedule.run_pending` finds the job due. -/
def cycleRunsAt (interval : Nat) : Nat → Bool
  | 0 => true
  | t + 1 => nextRunAfter interval t ≤ t + 1

/-! ## Theorems -/

/-- C1: For every usage value and thresholds,
`ResourceAnalyzer._check_resource_status` classifies by an if/elif table
with the high check taking precedence: it returns status `"OVERFLOW"`
when `usage ≥ high_threshold`; otherwise `"UNDERFLOW"` when
`usage ≤ low_threshold`; otherwise `"NORMAL"`. -/
theorem check_resource_status_classification (resource_type : String)
    (usage high_threshold low_threshold request limit : Int) :
    (check_resource_status resource_type usage high_threshold low_threshold request limit).1 =
      if usage ≥ high_threshold then "OVERFLOW"
      else if usage ≤ low_threshold then "UNDERFLOW"
      else "NORMAL" := by
  unfold check_resource_status
  split_ifs <;> rfl

/-- C5: Percentage computation is total: for every usage and request,
`_check_resource_status` computes
`utilization_percentage = (usage / request) * 100` when `request > 0`
and `0` otherwise; the division-by-zero branch is unreachable for every
input. -/
theorem check_resource_status_utilization_total (resource_type : String)
    (usage high_threshold low_threshold request limit : Int) :
    (check_resource_status resource_type usage high_threshold low_threshold request limit).2.1 =
      if request > 0 then ((usage : ℚ) / (request : ℚ)) * 100 else 0 := by
  unfold check_resource_status
  split_ifs <;> rfl

/-- C6: The thresholds are static: `ResourceAnalyzer` fixes the same
hard-coded CPU and memory threshold table at construction regardless of
the config argument, and `analyze_resource_usage` leaves the analyzer
state (in particular `self.thresholds`) unchanged. -/
theorem thresholds_static :
    (∀ (α β : Type) (c₁ : α) (c₂ : β),
      (ResourceAnalyzer.init c₁).thresholds = (ResourceAnalyzer.init c₂).thresholds) ∧
    (∀ (α : Type) (c : α), (ResourceAnalyzer.init c).thresholds = builtinThresholds) ∧
    (∀ (a : ResourceAnalyzer) (pod_metrics : List PodMetric),
      (a.analyzeMethod pod_metrics).1 = a) :=
  ⟨fun _ _ _ _ => rfl, fun _ _ => rfl, fun _ _ => rfl⟩

/-- `t` occurs as a contiguous substring of `s`. -/
def containsStr (s t : String) : Prop := t.data <:+: s.data

/-- Concatenation of a list of string pieces. -/
def joinStrings : List String → String
  | [] => ""
  | s :: rest => s ++ joinStrings rest

theorem containsStr_joinStrings {t : String} {l : List String} (h : t ∈ l) :
    containsStr (joinStrings l) t := by
  induction l with
  | nil => cases h
  | cons s rest ih =>
    unfold containsStr joinStrings
    rw [String.data_append]
    rcases List.mem_cons.mp h with h | h
    · subst h
      exact (List.prefix_append t.data (joinStrings rest).data).isInfix
    · exact (ih h).trans (List.suffix_append s.data (joinStrings rest).data).isInfix

theorem respBothOverflow_join (p c a m : String) :
    respBothOverflow p c a m = joinStrings
      ["⚠️ CRITICAL RESOURCE ALERT: Pod ", p, ", Container ", c,
       "\n\nBoth CPU and memory usage have exceeded high thresholds, indicating potential resource exhaustion.\n\n",
       a, "\n\n", m,
       "\n\nRECOMMENDATION: This container appears to be under significant load or experiencing a resource leak. Consider immediate investigation of application behavior, possibly scaling horizontally, and increasing resource limits if this usage pattern is expected."] := by
  simp [respBothOverflow, joinStrings, String.append_assoc, String.append_empty]

theorem respCpuOverflow_join (p c a m : String) :
    respCpuOverflow p c a m = joinStrings
      ["⚠️ CPU USAGE ALERT: Pod ", p, ", Container ", c, "\n\n", a, "\n\n", m,
       "\n\nRECOMMENDATION: Investigate application CPU usage patterns. If this is expected behavior during peak loads, consider increasing CPU limits or implementing autoscaling. If unexpected, check for CPU-intensive operations or infinite loops that might be consuming excessive resources."] := by
  simp [respCpuOverflow, joinStrings, String.append_assoc, String.append_empty]

theorem respMemoryOverflow_join (p c a m : String) :
    respMemoryOverflow p c a m = joinStrings
      ["⚠️ MEMORY USAGE ALERT: Pod ", p, ", Container ", c, "\n\n", m, "\n\n", a,
       "\n\nRECOMMENDATION: Check for memory leaks or unexpected caching behavior. Consider using memory profiling tools to identify memory usage patterns. If this is expected behavior for your workload, increase memory limits to prevent potential OOM (Out of Memory) kills."] := by
  simp [respMemoryOverflow, joinStrings, String.append_assoc, String.append_empty]

theorem respBothUnderflow_join (p c a m : String) :
    respBothUnderflow p c a m = joinStrings
      ["ℹ️ RESOURCE UNDERUTILIZATION NOTICE: Pod ", p, ", Container ", c,
       "\n\nBoth CPU and memory usage are significantly below requested resources.\n\n",
       a, "\n\n", m,
       "\n\nRECOMMENDATION: The container is overprovisioned. Consider reducing CPU and memory requests to improve cluster resource efficiency. For cost optimization, these resources could be better allocated to other workloads."] := by
  simp [respBothUnderflow, joinStrings, String.append_assoc, String.append_empty]

theorem respCpuUnderflow_join (p c a m : String) :
    respCpuUnderflow p c a m = joinStrings
      ["ℹ️ CPU UNDERUTILIZATION NOTICE: Pod ", p, ", Container ", c, "\n\n", a, "\n\n", m,
       "\n\nRECOMMENDATION: The container has excess CPU capacity. Consider reducing CPU requests to better match actual usage patterns and improve overall cluster CPU utilization."] := by
  simp [respCpuUnderflow, joinStrings, String.append_assoc, String.append_empty]

theorem respMemoryUnderflow_join (p c a m : String) :
    respMemoryUnderflow p c a m = joinStrings
      ["ℹ️ MEMORY UNDERUTILIZATION NOTICE: Pod ", p, ", Container ", c, "\n\n", m, "\n\n", a,
       "\n\nRECOMMENDATION: The container has excess memory allocation. Consider reducing memory requests to better align with actual usage patterns. This could improve cluster memory efficiency."] := by
  simp [respMemoryUnderflow, joinStrings, String.append_assoc, String.append_empty]

theorem respHealthy_join (p c a m : String) :
    respHealthy p c a m = joinStrings
      ["✅ HEALTHY RESOURCE UTILIZATION: Pod ", p, ", Container ", c,
       "\n\nBoth CPU and memory usage are within normal operational parameters.\n\n",
       a, "\n\n", m,
       "\n\nRECOMMENDATION: No action needed. Resource allocation appears to be appropriately sized for the current workload."] := by
  simp [respHealthy, joinStrings, String.append_assoc, String.append_empty]

theorem generate_llm_response_cases (p c : String) (ca : ContainerAnalysis) :
    generate_llm_response p c ca = respBothOverflow p c ca.cpu.analysis ca.memory.analysis ∨
    generate_llm_response p c ca = respCpuOverflow p c ca.cpu.analysis ca.memory.analysis ∨
    generate_llm_response p c ca = respMemoryOverflow p c ca.cpu.analysis ca.memory.analysis ∨
    generate_llm_response p c ca = respBothUnderflow p c ca.cpu.analysis ca.memory.analysis ∨
    generate_llm_response p c ca = respCpuUnderflow p c ca.cpu.analysis ca.memory.analysis ∨
    generate_llm_response p c ca = respMemoryUnderflow p c ca.cpu.analysis ca.memory.analysis ∨
    generate_llm_response p c ca = respHealthy p c ca.cpu.analysis ca.memory.analysis := by
  simp only [generate_llm_response]
  split_ifs <;> simp

/-- C4: Templated textual reporting: for every `(cpu_status, memory_status)`
pair, `_generate_llm_response` returns exactly one of seven fixed
templates chosen with precedence both-OVERFLOW, CPU OVERFLOW, memory
OVERFLOW, both-UNDERFLOW, CPU UNDERFLOW, memory UNDERFLOW, otherwise
healthy, and the returned text always contains the pod name, the
container name, and both per-resource analysis strings. -/
theorem generate_llm_response_spec (pod_name container_name : String)
    (ca : ContainerAnalysis) :
    (ca.cpu.status = "OVERFLOW" → ca.memory.status = "OVERFLOW" →
      generate_llm_response pod_name container_name ca =
        respBothOverflow pod_name container_name ca.cpu.analysis ca.memory.analysis) ∧
    (ca.cpu.status = "OVERFLOW" → ca.memory.status ≠ "OVERFLOW" →
      generate_llm_response pod_name container_name ca =
        respCpuOverflow pod_name container_name ca.cpu.analysis ca.memory.analysis) ∧
    (ca.cpu.status ≠ "OVERFLOW" → ca.memory.status = "OVERFLOW" →
      generate_llm_response pod_name container_name ca =
        respMemoryOverflow pod_name container_name ca.cpu.analysis ca.memory.analysis) ∧
    (ca.cpu.status ≠ "OVERFLOW" → ca.memory.status ≠ "OVERFLOW" →
      ca.cpu.status = "UNDERFLOW" → ca.memory.status = "UNDERFLOW" →
      generate_llm_response pod_name container_name ca =
        respBothUnderflow pod_name container_name ca.cpu.analysis ca.memory.analysis) ∧
    (ca.cpu.status ≠ "OVERFLOW" → ca.memory.status ≠ "OVERFLOW" →
      ca.cpu.status = "UNDERFLOW" → ca.memory.status ≠ "UNDERFLOW" →
      generate_llm_response pod_name container_name ca =
        respCpuUnderflow pod_name container_name ca.cpu.analysis ca.memory.analysis) ∧
    (ca.cpu.status ≠ "OVERFLOW" → ca.memory.status ≠ "OVERFLOW" →
      ca.cpu.status ≠ "UNDERFLOW" → ca.memory.status = "UNDERFLOW" →
      generate_llm_response pod_name container_name ca =
        respMemoryUnderflow pod_name container_name ca.cpu.analysis ca.memory.analysis) ∧
    (ca.cpu.status ≠ "OVERFLOW" → ca.memory.status ≠ "OVERFLOW" →
      ca.cpu.status ≠ "UNDERFLOW" → ca.memory.status ≠ "UNDERFLOW" →
      generate_llm_response pod_name container_name ca =
        respHealthy pod_name container_name ca.cpu.analysis ca.memory.analysis) ∧
    containsStr (generate_llm_response pod_name container_name ca) pod_name ∧
    containsStr (generate_llm_response pod_name container_name ca) container_name ∧
    containsStr (generate_llm_response pod_name container_name ca) ca.cpu.analysis ∧
    containsStr (generate_llm_response pod_name container_name ca) ca.memory.analysis := by
  have hcontain : containsStr (generate_llm_response pod_name container_name ca) pod_name ∧
      containsStr (generate_llm_response pod_name container_name ca) container_name ∧
      containsStr (generate_llm_response pod_name container_name ca) ca.cpu.analysis ∧
      containsStr (generate_llm_response pod_name container_name ca) ca.memory.analysis := by
    rcases generate_llm_response_cases pod_name container_name ca with
      h | h | h | h | h | h | h
    · rw [h, respBothOverflow_join]
      exact ⟨containsStr_joinStrings (by simp), containsStr_joinStrings (by simp),
        containsStr_joinStrings (by simp), containsStr_joinStrings (by simp)⟩
    · rw [h, respCpuOverflow_join]
      exact ⟨containsStr_joinStrings (by simp), containsStr_joinStrings (by simp),
        containsStr_joinStrings (by simp), containsStr_joinStrings (by simp)⟩
    · rw [h, respMemoryOverflow_join]
      exact ⟨containsStr_joinStrings (by simp), containsStr_joinStrings (by simp),
        containsStr_joinStrings (by simp), containsStr_joinStrings (by simp)⟩
    · rw [h, respBothUnderflow_join]
      exact ⟨containsStr_joinStrings (by simp), containsStr_joinStrings (by simp),
        containsStr_joinStrings (by simp), containsStr_joinStrings (by simp)⟩
    · rw [h, respCpuUnderflow_join]
      exact ⟨containsStr_joinStrings (by simp), containsStr_joinStrings (by simp),
        containsStr_joinStrings (by simp), containsStr_joinStrings (by simp)⟩
    · rw [h, respMemoryUnderflow_join]
      exact ⟨containsStr_joinStrings (by simp), containsStr_joinStrings (by simp),
        containsStr_joinStrings (by simp), containsStr_joinStrings (by simp)⟩
    · rw [h, respHealthy_join]
      exact ⟨containsStr_joinStrings (by simp), containsStr_joinStrings (by simp),
        containsStr_joinStrings (by simp), containsStr_joinStrings (by simp)⟩
  refine ⟨?_, ?_, ?_, ?_, ?_, ?_, ?_, hcontain.1, hcontain.2.1, hcontain.2.2.1, hcontain.2.2.2⟩
  · intro h1 h2
    simp [generate_llm_response, h1, h2]
  · intro h1 h2
    simp [generate_llm_response, h1, h2]
  · intro h1 h2
    simp [generate_llm_response, h1, h2]
  · intro h1 h2 h3 h4
    simp [generate_llm_response, h1, h2, h3, h4]
  · intro h1 h2 h3 h4
    simp [generate_llm_response, h1, h2, h3, h4]
  · intro h1 h2 h3 h4
    simp [generate_llm_response, h1, h2, h3, h4]
  · intro h1 h2 h3 h4
    simp [generate_llm_response, h1, h2, h3, h4]

/-- Witness for C4 at a concrete analysis record: CPU OVERFLOW with
memory NORMAL selects the CPU-alert template. -/
theorem generate_llm_response_spec_witness :
    generate_llm_response "demo-pod" "demo-container"
        ⟨⟨0, "OVERFLOW", 0, "CPU-ANALYSIS"⟩, ⟨0, "NORMAL", 0, "MEM-ANALYSIS"⟩⟩ =
      respCpuOverflow "demo-pod" "demo-container" "CPU-ANALYSIS" "MEM-ANALYSIS" :=
  (generate_llm_response_spec "demo-pod" "demo-container"
    ⟨⟨0, "OVERFLOW", 0, "CPU-ANALYSIS"⟩, ⟨0, "NORMAL", 0, "MEM-ANALYSIS"⟩⟩).2.1
    rfl (by decide)

theorem digitVal_isDigit {c : Char} {v : Nat} (h : digitVal c = some v) :
    c.isDigit = true := by
  by_cases hc : c.isDigit = true
  · exact hc
  · simp [digitVal, hc] at h

theorem parseDigitsAux_digits : ∀ {s : PyStr} {acc n : Nat},
    parseDigitsAux s acc = some n → ∀ c ∈ s, c.isDigit = true := by
  intro s
  induction s with
  | nil => intro acc n _ c hc; cases hc
  | cons d cs ih =>
    intro acc n h c hc
    rcases hd : digitVal d with _ | v <;> simp only [parseDigitsAux, hd] at h
    · cases h
    · rcases List.mem_cons.mp hc with rfl | hc2
      · exact digitVal_isDigit hd
      · exact ih h c hc2

theorem parseDigits_ne_nil {s : PyStr} {n : Nat} (h : parseDigits s = some n) : s ≠ [] := by
  intro hs
  subst hs
  cases h

theorem parseDigits_digits {s : PyStr} {n : Nat} (h : parseDigits s = some n) :
    ∀ c ∈ s, c.isDigit = true := by
  rcases s with _ | ⟨c, cs⟩
  · cases h
  · exact parseDigitsAux_digits h

theorem parseDigits_getLast_digit {s : PyStr} {n : Nat} (h : parseDigits s = some n) :
    ∃ d, s.getLast? = some d ∧ d.isDigit = true := by
  have hne := parseDigits_ne_nil h
  refine ⟨s.getLast hne, List.getLast?_eq_getLast_of_ne_nil hne, ?_⟩
  exact parseDigits_digits h _ (List.getLast_mem hne)

theorem pyInt_of_parseDigits {s : PyStr} {n : Nat} (h : parseDigits s = some n) :
    pyInt s = some (n : Int) := by
  have hne := parseDigits_ne_nil h
  rcases s with _ | ⟨c, cs⟩
  · exact absurd rfl hne
  · have hc : c.isDigit = true := parseDigits_digits h c (List.mem_cons_self c cs)
    have hcm : c ≠ '-' := by
      intro hceq
      rw [hceq] at hc
      cases hc
    unfold pyInt
    rw [List.head?_cons, if_neg (fun heq => hcm (Option.some.inj heq)), h]
    rfl

theorem pyEndsWith_append (s t : PyStr) : pyEndsWith (s ++ t) t = true := by
  unfold pyEndsWith
  rw [List.reverse_append, List.isPrefixOf_iff_prefix]
  exact List.prefix_append _ _

theorem dropRightN_append (s t : PyStr) : dropRightN (s ++ t) t.length = s := by
  unfold dropRightN
  rw [List.reverse_append, ← List.length_reverse t, List.drop_left]
  exact List.reverse_reverse s

theorem not_pyEndsWith_one_one {s : PyStr} {d c : Char} (h : (c == d) = false) :
    pyEndsWith (s ++ [d]) [c] = false := by
  unfold pyEndsWith
  rw [List.reverse_append]
  simp [List.isPrefixOf, h]

theorem not_pyEndsWith_one_two {s : PyStr} {d a b : Char} (h : (b == d) = false) :
    pyEndsWith (s ++ [d]) [a, b] = false := by
  unfold pyEndsWith
  rw [List.reverse_append]
  simp [List.isPrefixOf, h]

theorem not_pyEndsWith_two_two {s : PyStr} {c d a b : Char}
    (h : ((b == d) && (a == c)) = false) :
    pyEndsWith (s ++ [c, d]) [a, b] = false := by
  unfold pyEndsWith
  rw [List.reverse_append]
  rcases Bool.and_eq_false_iff.mp h with h1 | h1 <;> simp [List.isPrefixOf, h1]

theorem not_pyEndsWith_digits_one {s : PyStr} {d : Char} (hlast : s.getLast? = some d)
    (hd : d.isDigit = true) {c : Char} (hc : c.isDigit = false) :
    pyEndsWith s [c] = false := by
  have h1 : s.reverse.head? = some d := by rw [List.head?_reverse]; exact hlast
  have hcd : (c == d) = false := by
    refine beq_eq_false_iff_ne.mpr (fun hceq => ?_)
    rw [hceq, hd] at hc
    cases hc
  rcases hr : s.reverse with _ | ⟨e, r⟩
  · rw [hr] at h1; cases h1
  · rw [hr] at h1
    have he : e = d := Option.some.inj h1
    unfold pyEndsWith
    rw [hr, he]
    simp [List.isPrefixOf, hcd]

theorem not_pyEndsWith_digits_two {s : PyStr} {d : Char} (hlast : s.getLast? = some d)
    (hd : d.isDigit = true) {a b : Char} (hb : b.isDigit = false) :
    pyEndsWith s [a, b] = false := by
  have h1 : s.reverse.head? = some d := by rw [List.head?_reverse]; exact hlast
  have hbd : (b == d) = false := by
    refine beq_eq_false_iff_ne.mpr (fun hbeq => ?_)
    rw [hbeq, hd] at hb
    cases hb
  rcases hr : s.reverse with _ | ⟨e, r⟩
  · rw [hr] at h1; cases h1
  · rw [hr] at h1
    have he : e = d := Option.some.inj h1
    unfold pyEndsWith
    rw [hr, he]
    simp [List.isPrefixOf, hbd]

theorem bool_ne_true {b : Bool} (h : b = false) : ¬ (b = true) := by
  rw [h]
  exact Bool.false_ne_true

theorem floatExpAux_le : ∀ (fuel x k : Nat), x / 2 ^ k < 2 ^ 53 → floatExpAux fuel x ≤ k := by
  intro fuel
  induction fuel with
  | zero => intro x k _; exact Nat.zero_le k
  | succ fuel ih =>
    intro x k h
    simp only [floatExpAux]
    split
    · exact Nat.zero_le k
    · rename_i hx
      cases k with
      | zero =>
        rw [pow_zero, Nat.div_one] at h
        exact absurd h hx
      | succ k2 =>
        have h2 : x / 2 / 2 ^ k2 < 2 ^ 53 := by
          rw [Nat.div_div_eq_div_mul, show (2 : Nat) * 2 ^ k2 = 2 ^ (k2 + 1) by ring]
          exact h
        exact Nat.succ_le_succ (ih (x / 2) k2 h2)

theorem floatExp_le (x k : Nat) (h : x / 2 ^ k < 2 ^ 53) : floatExp x ≤ k :=
  floatExpAux_le x x k h

theorem roundToDouble_exact (m k : Nat) (hm : m < 2 ^ 53) :
    roundToDouble (m * 2 ^ k) = m * 2 ^ k := by
  have hle : floatExp (m * 2 ^ k) ≤ k := by
    refine floatExp_le _ k ?_
    rw [Nat.mul_div_cancel m (pow_pos (by norm_num) k)]
    exact hm
  simp only [roundToDouble]
  by_cases he : floatExp (m * 2 ^ k) = 0
  · rw [if_pos he]
  · rw [if_neg he]
    have hdvd : 2 ^ floatExp (m * 2 ^ k) ∣ m * 2 ^ k :=
      Dvd.dvd.mul_left (pow_dvd_pow 2 hle) m
    have hr : m * 2 ^ k % 2 ^ floatExp (m * 2 ^ k) = 0 := Nat.mod_eq_zero_of_dvd hdvd
    rw [hr]
    rw [if_neg (Nat.not_lt_zero _), if_pos (pow_pos (by norm_num) _)]
    exact Nat.div_mul_cancel hdvd

theorem roundToDouble_small (x : Nat) (h : x < 2 ^ 53) : roundToDouble x = x := by
  have := roundToDouble_exact x 0 h
  simpa using this

theorem pyIntFloatMulBillion_of_le (n : Nat) (h : n ≤ 4611686018) :
    pyIntFloatMulBillion (n : Int) = some ((n : Int) * 1000000000) := by
  have hn53 : n < 2 ^ 53 := lt_of_le_of_lt h (by norm_num)
  have habs : ((n : Int)).natAbs = n := by omega
  have h1 : roundToDouble ((n : Int)).natAbs = n := by
    rw [habs]
    exact roundToDouble_small n hn53
  have h2 : roundToDouble (n * 1000000000) = n * 1000000000 := by
    rw [show n * 1000000000 = n * 1953125 * 2 ^ 9 by ring]
    refine roundToDouble_exact (n * 1953125) 9 ?_
    calc n * 1953125 ≤ 4611686018 * 1953125 := mul_le_mul_right' h 1953125
      _ < 2 ^ 53 := by norm_num
  have hlt1 : ¬ (2 ^ 1024 ≤ n) := Nat.not_le.mpr (lt_of_le_of_lt h (by norm_num))
  have hlt2 : ¬ (2 ^ 1024 ≤ n * 1000000000) := by
    refine Nat.not_le.mpr ?_
    calc n * 1000000000 ≤ 4611686018 * 1000000000 := mul_le_mul_right' h 1000000000
      _ < 2 ^ 1024 := by norm_num
  simp only [pyIntFloatMulBillion, h1, h2]
  rw [if_neg hlt1, if_neg hlt2, if_neg (show ¬ ((n : Int) < 0) by omega)]
  norm_cast

theorem parse_cpu_value_zero : parse_cpu_value ['0'] = some 0 := by
  decide

/-- Counterexample to C2 as stated: the bare-number CPU branch is
`int(float(cpu_str) * 1000000000)`, and binary64 rounding makes it
diverge from exact integer multiplication once the product leaves the
float-exact range: on the numeral string `"4611686019"` the program
returns `4611686019000000512`, not
`4611686019 * 10 ^ 9 = 4611686019000000000`. -/
theorem parse_cpu_bare_float_counterexample :
    parseDigits ['4', '6', '1', '1', '6', '8', '6', '0', '1', '9'] = some 4611686019 ∧
    parse_cpu_value ['4', '6', '1', '1', '6', '8', '6', '0', '1', '9'] =
      some 4611686019000000512 ∧
    (4611686019000000512 : Int) ≠ (4611686019 : Int) * 1000000000 := by
  refine ⟨by decide, by decide, by decide⟩

/-- C2 (amended): Unit parsing converts Kubernetes resource quantity
strings to integers by suffix: for every integer-valued string `n`,
`_parse_cpu_value` maps the empty string to 0, `n ++ "n"` to `n`
nanocores, `n ++ "u"` to `n * 1000`, `n ++ "m"` to `n * 1000000`, and a
bare number whose value is at most 4611686018 — so that the value times
`10 ^ 9` is exactly representable in binary64 — to that number times
`10 ^ 9` (larger bare numerals go through `int(float(s) * 1e9)`, whose
rounding can differ); `_parse_memory_value` maps the empty string to 0,
`n ++ "Ki"/"Mi"/"Gi"` to `n * 1024 / n * 1024 ^ 2 / n * 1024 ^ 3`
bytes, `n ++ "K"|"k"`, `"M"|"m"`, `"G"|"g"` to
`n * 1000 / n * 1000 ^ 2 / n * 1000 ^ 3` bytes, and a bare number to
that many bytes. -/
theorem parse_quantity_units :
    parse_cpu_value [] = some 0 ∧ parse_memory_value [] = some 0 ∧
    ∀ (s : PyStr) (n : Nat), parseDigits s = some n →
      parse_cpu_value (s ++ ['n']) = some (n : Int) ∧
      parse_cpu_value (s ++ ['u']) = some ((n : Int) * 1000) ∧
      parse_cpu_value (s ++ ['m']) = some ((n : Int) * 1000000) ∧
      (n ≤ 4611686018 → parse_cpu_value s = some ((n : Int) * 1000000000)) ∧
      parse_memory_value (s ++ ['K', 'i']) = some ((n : Int) * 1024) ∧
      parse_memory_value (s ++ ['M', 'i']) = some ((n : Int) * (1024 * 1024)) ∧
      parse_memory_value (s ++ ['G', 'i']) = some ((n : Int) * (1024 * 1024 * 1024)) ∧
      parse_memory_value (s ++ ['K']) = some ((n : Int) * 1000) ∧
      parse_memory_value (s ++ ['k']) = some ((n : Int) * 1000) ∧
      parse_memory_value (s ++ ['M']) = some ((n : Int) * (1000 * 1000)) ∧
      parse_memory_value (s ++ ['m']) = some ((n : Int) * (1000 * 1000)) ∧
      parse_memory_value (s ++ ['G']) = some ((n : Int) * (1000 * 1000 * 1000)) ∧
      parse_memory_value (s ++ ['g']) = some ((n : Int) * (1000 * 1000 * 1000)) ∧
      parse_memory_value s = some (n : Int) := by
  refine ⟨rfl, rfl, fun s n h => ?_⟩
  obtain ⟨d, hlast, hdig⟩ := parseDigits_getLast_digit h
  have hpy := pyInt_of_parseDigits h
  have hne : s ≠ [] := parseDigits_ne_nil h
  refine ⟨?_, ?_, ?_, ?_, ?_, ?_, ?_, ?_, ?_, ?_, ?_, ?_, ?_, ?_⟩
  · unfold parse_cpu_value
    rw [if_neg (by simp), if_pos (pyEndsWith_append s ['n']),
      show dropRightN (s ++ ['n']) 1 = s from dropRightN_append s ['n'], hpy]
  · unfold parse_cpu_value
    rw [if_neg (by simp), if_neg (bool_ne_true (not_pyEndsWith_one_one (by decide))),
      if_pos (pyEndsWith_append s ['u']),
      show dropRightN (s ++ ['u']) 1 = s from dropRightN_append s ['u'], hpy]
    rfl
  · unfold parse_cpu_value
    rw [if_neg (by simp), if_neg (bool_ne_true (not_pyEndsWith_one_one (by decide))),
      if_neg (bool_ne_true (not_pyEndsWith_one_one (by decide))),
      if_pos (pyEndsWith_append s ['m']),
      show dropRightN (s ++ ['m']) 1 = s from dropRightN_append s ['m'], hpy]
    rfl
  · intro hbound
    unfold parse_cpu_value
    rw [if_neg hne, if_neg (bool_ne_true (not_pyEndsWith_digits_one hlast hdig (by decide))),
      if_neg (bool_ne_true (not_pyEndsWith_digits_one hlast hdig (by decide))),
      if_neg (bool_ne_true (not_pyEndsWith_digits_one hlast hdig (by decide))), hpy]
    exact pyIntFloatMulBillion_of_le n hbound
  · unfold parse_memory_value
    rw [if_neg (by simp), if_pos (pyEndsWith_append s ['K', 'i']),
      show dropRightN (s ++ ['K', 'i']) 2 = s from dropRightN_append s ['K', 'i'], hpy]
    rfl
  · unfold parse_memory_value
    rw [if_neg (by simp), if_neg (bool_ne_true (not_pyEndsWith_two_two (by decide))),
      if_pos (pyEndsWith_append s ['M', 'i']),
      show dropRightN (s ++ ['M', 'i']) 2 = s from dropRightN_append s ['M', 'i'], hpy]
    rfl
  · unfold parse_memory_value
    rw [if_neg (by simp), if_neg (bool_ne_true (not_pyEndsWith_two_two (by decide))),
      if_neg (bool_ne_true (not_pyEndsWith_two_two (by decide))),
      if_pos (pyEndsWith_append s ['G', 'i']),
      show dropRightN (s ++ ['G', 'i']) 2 = s from dropRightN_append s ['G', 'i'], hpy]
    rfl
  · unfold parse_memory_value
    rw [if_neg (by simp), if_neg (bool_ne_true (not_pyEndsWith_one_two (by decide))),
      if_neg (bool_ne_true (not_pyEndsWith_one_two (by decide))),
      if_neg (bool_ne_true (not_pyEndsWith_one_two (by decide))),
      if_pos (show (pyEndsWith (s ++ ['K']) ['K'] || pyEndsWith (s ++ ['K']) ['k']) = true by
        rw [pyEndsWith_append]; rfl),
      show dropRightN (s ++ ['K']) 1 = s from dropRightN_append s ['K'], hpy]
    rfl
  · unfold parse_memory_value
    rw [if_neg (by simp), if_neg (bool_ne_true (not_pyEndsWith_one_two (by decide))),
      if_neg (bool_ne_true (not_pyEndsWith_one_two (by decide))),
      if_neg (bool_ne_true (not_pyEndsWith_one_two (by decide))),
      if_pos (show (pyEndsWith (s ++ ['k']) ['K'] || pyEndsWith (s ++ ['k']) ['k']) = true by
        rw [not_pyEndsWith_one_one (by decide), pyEndsWith_append]; rfl),
      show dropRightN (s ++ ['k']) 1 = s from dropRightN_append s ['k'], hpy]
    rfl
  · unfold parse_memory_value
    rw [if_neg (by simp), if_neg (bool_ne_true (not_pyEndsWith_one_two (by decide))),
      if_neg (bool_ne_true (not_pyEndsWith_one_two (by decide))),
      if_neg (bool_ne_true (not_pyEndsWith_one_two (by decide))),
      if_neg (bool_ne_true (show (pyEndsWith (s ++ ['M']) ['K'] || pyEndsWith (s ++ ['M']) ['k']) = false by
        rw [not_pyEndsWith_one_one (by decide), not_pyEndsWith_one_one (by decide)]; rfl)),
      if_pos (show (pyEndsWith (s ++ ['M']) ['M'] || pyEndsWith (s ++ ['M']) ['m']) = true by
        rw [pyEndsWith_append]; rfl),
      show dropRightN (s ++ ['M']) 1 = s from dropRightN_append s ['M'], hpy]
    rfl
  · unfold parse_memory_value
    rw [if_neg (by simp), if_neg (bool_ne_true (not_pyEndsWith_one_two (by decide))),
      if_neg (bool_ne_true (not_pyEndsWith_one_two (by decide))),
      if_neg (bool_ne_true (not_pyEndsWith_one_two (by decide))),
      if_neg (bool_ne_true (show (pyEndsWith (s ++ ['m']) ['K'] || pyEndsWith (s ++ ['m']) ['k']) = false by
        rw [not_pyEndsWith_one_one (by decide), not_pyEndsWith_one_one (by decide)]; rfl)),
      if_pos (show (pyEndsWith (s ++ ['m']) ['M'] || pyEndsWith (s ++ ['m']) ['m']) = true by
        rw [not_pyEndsWith_one_one (by decide), pyEndsWith_append]; rfl),
      show dropRightN (s ++ ['m']) 1 = s from dropRightN_append s ['m'], hpy]
    rfl
  · unfold parse_memory_value
    rw [if_neg (by simp), if_neg (bool_ne_true (not_pyEndsWith_one_two (by decide))),
      if_neg (bool_ne_true (not_pyEndsWith_one_two (by decide))),
      if_neg (bool_ne_true (not_pyEndsWith_one_two (by decide))),
      if_neg (bool_ne_true (show (pyEndsWith (s ++ ['G']) ['K'] || pyEndsWith (s ++ ['G']) ['k']) = false by
        rw [not_pyEndsWith_one_one (by decide), not_pyEndsWith_one_one (by decide)]; rfl)),
      if_neg (bool_ne_true (show (pyEndsWith (s ++ ['G']) ['M'] || pyEndsWith (s ++ ['G']) ['m']) = false by
        rw [not_pyEndsWith_one_one (by decide), not_pyEndsWith_one_one (by decide)]; rfl)),
      if_pos (show (pyEndsWith (s ++ ['G']) ['G'] || pyEndsWith (s ++ ['G']) ['g']) = true by
        rw [pyEndsWith_append]; rfl),
      show dropRightN (s ++ ['G']) 1 = s from dropRightN_append s ['G'], hpy]
    rfl
  · unfold parse_memory_value
    rw [if_neg (by simp), if_neg (bool_ne_true (not_pyEndsWith_one_two (by decide))),
      if_neg (bool_ne_true (not_pyEndsWith_one_two (by decide))),
      if_neg (bool_ne_true (not_pyEndsWith_one_two (by decide))),
      if_neg (bool_ne_true (show (pyEndsWith (s ++ ['g']) ['K'] || pyEndsWith (s ++ ['g']) ['k']) = false by
        rw [not_pyEndsWith_one_one (by decide), not_pyEndsWith_one_one (by decide)]; rfl)),
      if_neg (bool_ne_true (show (pyEndsWith (s ++ ['g']) ['M'] || pyEndsWith (s ++ ['g']) ['m']) = false by
        rw [not_pyEndsWith_one_one (by decide), not_pyEndsWith_one_one (by decide)]; rfl)),
      if_pos (show (pyEndsWith (s ++ ['g']) ['G'] || pyEndsWith (s ++ ['g']) ['g']) = true by
        rw [not_pyEndsWith_one_one (by decide), pyEndsWith_append]; rfl),
      show dropRightN (s ++ ['g']) 1 = s from dropRightN_append s ['g'], hpy]
    rfl
  · unfold parse_memory_value
    rw [if_neg hne, if_neg (bool_ne_true (not_pyEndsWith_digits_two hlast hdig (by decide))),
      if_neg (bool_ne_true (not_pyEndsWith_digits_two hlast hdig (by decide))),
      if_neg (bool_ne_true (not_pyEndsWith_digits_two hlast hdig (by decide))),
      if_neg (bool_ne_true (show (pyEndsWith s ['K'] || pyEndsWith s ['k']) = false by
        rw [not_pyEndsWith_digits_one hlast hdig (by decide),
          not_pyEndsWith_digits_one hlast hdig (by decide)]; rfl)),
      if_neg (bool_ne_true (show (pyEndsWith s ['M'] || pyEndsWith s ['m']) = false by
        rw [not_pyEndsWith_digits_one hlast hdig (by decide),
          not_pyEndsWith_digits_one hlast hdig (by decide)]; rfl)),
      if_neg (bool_ne_true (show (pyEndsWith s ['G'] || pyEndsWith s ['g']) = false by
        rw [not_pyEndsWith_digits_one hlast hdig (by decide),
          not_pyEndsWith_digits_one hlast hdig (by decide)]; rfl))]
    exact hpy

/-- Witness for C2 at the concrete numeral string `"4"`. -/
theorem parse_quantity_units_witness :
    parse_cpu_value (['4'] ++ ['n']) = some ((4 : Nat) : Int) ∧
    parse_cpu_value ['4'] = some (((4 : Nat) : Int) * 1000000000) ∧
    parse_memory_value (['4'] ++ ['K', 'i']) = some (((4 : Nat) : Int) * 1024) ∧
    parse_memory_value ['4'] = some ((4 : Nat) : Int) := by
  have h := (parse_quantity_units.2.2 ['4'] 4 (by decide))
  exact ⟨h.1, h.2.2.2.1 (by decide), h.2.2.2.2.1, h.2.2.2.2.2.2.2.2.2.2.2.2.2⟩

theorem checkLoop_attempts_le (e : Nat) :
    ∀ (l : List AttemptOutcome) (r : EndpointResult), (checkLoop e l r).2.1 ≤ l.length := by
  intro l
  induction l with
  | nil => intro r; exact Nat.le_refl 0
  | cons out rest ih =>
    intro r
    cases out with
    | ok sc rt =>
      by_cases hsc : sc = e
      · simp only [checkLoop, if_pos hsc]
        exact Nat.succ_le_succ (Nat.zero_le _)
      · simp only [checkLoop, if_neg hsc]
        exact Nat.succ_le_succ (ih _)
    | timeoutErr => exact Nat.succ_le_succ (ih _)
    | connectionErr => exact Nat.succ_le_succ (ih _)
    | otherErr m => exact Nat.succ_le_succ (ih _)

theorem checkLoop_attempts_sleeps (e : Nat) :
    ∀ (l : List AttemptOutcome) (r : EndpointResult), l ≠ [] →
      (checkLoop e l r).2.1 = (checkLoop e l r).2.2 + 1 := by
  intro l
  induction l with
  | nil => intro r h; exact absurd rfl h
  | cons out rest ih =>
    intro r _
    have hstep : ∀ r2 : EndpointResult,
        (checkLoop e rest r2).2.1 + 1 =
          ((checkLoop e rest r2).2.2 + (if rest = [] then 0 else 1)) + 1 := by
      intro r2
      rcases hrest : rest with _ | ⟨x, xs⟩
      · rfl
      · rw [if_neg (List.cons_ne_nil x xs), ← hrest, ih r2 (hrest ▸ List.cons_ne_nil x xs)]
    cases out with
    | ok sc rt =>
      by_cases hsc : sc = e
      · simp only [checkLoop, if_pos hsc]
      · simp only [checkLoop, if_neg hsc]
        exact hstep _
    | timeoutErr => exact hstep _
    | connectionErr => exact hstep _
    | otherErr m => exact hstep _

theorem checkLoop_success_iff (e : Nat) :
    ∀ (l : List AttemptOutcome) (r : EndpointResult), r.success = false →
      ((checkLoop e l r).1.success = true ↔ l.any (isMatch e) = true) := by
  intro l
  induction l with
  | nil =>
    intro r hr
    simp [checkLoop, hr]
  | cons out rest ih =>
    intro r hr
    cases out with
    | ok sc rt =>
      by_cases hsc : sc = e
      · simp only [checkLoop, if_pos hsc]
        simp [isMatch, hsc]
      · have h2 := ih { r with response_time := some rt, status_code := some sc, error := some ("Unexpected status code: " ++ toString sc) } hr
        simp only [checkLoop, if_neg hsc]
        rw [h2]
        simp [isMatch, hsc]
    | timeoutErr =>
      have h2 := ih { r with error := some "Request timed out" } hr
      simp only [checkLoop]
      rw [h2]
      simp [isMatch]
    | connectionErr =>
      have h2 := ih { r with error := some "Connection error" } hr
      simp only [checkLoop]
      rw [h2]
      simp [isMatch]
    | otherErr m =>
      have h2 := ih { r with error := some m } hr
      simp only [checkLoop]
      rw [h2]
      simp [isMatch]

theorem checkLoop_status_of_success (e : Nat) :
    ∀ (l : List AttemptOutcome) (r : EndpointResult), r.success = false →
      (checkLoop e l r).1.success = true → (checkLoop e l r).1.status_code = some e := by
  intro l
  induction l with
  | nil =>
    intro r hr hs
    rw [show (checkLoop e [] r).1 = r from rfl] at hs
    rw [hr] at hs
    cases hs
  | cons out rest ih =>
    intro r hr
    cases out with
    | ok sc rt =>
      by_cases hsc : sc = e
      · intro _
        simp only [checkLoop, if_pos hsc]
        rw [hsc]
      · simp only [checkLoop, if_neg hsc]
        exact ih _ hr
    | timeoutErr => exact ih _ hr
    | connectionErr => exact ih _ hr
    | otherErr m => exact ih _ hr

theorem checkLoop_stops_at_first (e : Nat) :
    ∀ (l : List AttemptOutcome) (r : EndpointResult) (i : Nat) (o : AttemptOutcome),
      l.get? i = some o → isMatch e o = true → (checkLoop e l r).2.1 ≤ i + 1 := by
  intro l
  induction l with
  | nil => intro r i o hg; cases hg
  | cons out rest ih =>
    intro r i o hg hm
    cases i with
    | zero =>
      have ho : out = o := Option.some.inj hg
      subst ho
      cases out with
      | ok sc rt =>
        have hsc : sc = e := by
          simpa [isMatch] using hm
        simp only [checkLoop, if_pos hsc]
        exact Nat.le_refl 1
      | timeoutErr => cases hm
      | connectionErr => cases hm
      | otherErr m => cases hm
    | succ j =>
      have hg2 : rest.get? j = some o := hg
      cases out with
      | ok sc rt =>
        by_cases hsc : sc = e
        · simp only [checkLoop, if_pos hsc]
          exact Nat.succ_le_succ (Nat.zero_le _)
        · simp only [checkLoop, if_neg hsc]
          exact Nat.succ_le_succ (ih _ j o hg2 hm)
      | timeoutErr => exact Nat.succ_le_succ (ih _ j o hg2 hm)
      | connectionErr => exact Nat.succ_le_succ (ih _ j o hg2 hm)
      | otherErr m => exact Nat.succ_le_succ (ih _ j o hg2 hm)

theorem checkLoop_error_last (e : Nat) :
    ∀ (l : List AttemptOutcome) (r : EndpointResult) (out : AttemptOutcome),
      (∀ o ∈ l, isMatch e o = false) → isMatch e out = false →
      (checkLoop e (l ++ [out]) r).1.error = failError e out := by
  intro l
  induction l with
  | nil =>
    intro r out _ hm
    cases out with
    | ok sc rt =>
      have hsc : sc ≠ e := by
        intro hsceq
        subst hsceq
        simp [isMatch] at hm
      simp [checkLoop, failError, hsc]
    | timeoutErr => rfl
    | connectionErr => rfl
    | otherErr m => rfl
  | cons x rest ih =>
    intro r out hall hm
    have hx : isMatch e x = false := hall x (List.mem_cons_self x rest)
    have hrest : ∀ o ∈ rest, isMatch e o = false :=
      fun o ho => hall o (List.mem_cons_of_mem x ho)
    cases x with
    | ok sc rt =>
      have hsc : sc ≠ e := by
        intro hsceq
        subst hsceq
        simp [isMatch] at hx
      simp only [List.cons_append, checkLoop, if_neg hsc]
      exact ih _ out hrest hm
    | timeoutErr => exact ih _ out hrest hm
    | connectionErr => exact ih _ out hrest hm
    | otherErr m => exact ih _ out hrest hm

/-- C3: For every endpoint, `ApiMonitor.check_endpoint` retries with a
fixed count and sleep: it makes at most `retries` attempts, sleeps 1
second between consecutive attempts (so the sleep count is one less
than the attempt count), stops at the first attempt whose HTTP status
code equals the expected_status of the endpoint (setting success to
`True`), and if no attempt matches it returns success `False` with the
error of the last attempt recorded. -/
theorem check_endpoint_retry_spec (retries expected : Nat) (outcomes : Nat → AttemptOutcome) :
    (check_endpoint retries expected outcomes).2.1 ≤ retries ∧
    (check_endpoint retries expected outcomes).2.2 =
      (check_endpoint retries expected outcomes).2.1 - 1 ∧
    ((check_endpoint retries expected outcomes).1.success = true ↔
      ∃ i, i < retries ∧ isMatch expected (outcomes i) = true) ∧
    (∀ i, i < retries → isMatch expected (outcomes i) = true →
      (check_endpoint retries expected outcomes).2.1 ≤ i + 1) ∧
    ((∀ i, i < retries → isMatch expected (outcomes i) = false) → 0 < retries →
      (check_endpoint retries expected outcomes).1.success = false ∧
      (check_endpoint retries expected outcomes).1.error =
        failError expected (outcomes (retries - 1))) := by
  have hiff := checkLoop_success_iff expected ((List.range retries).map outcomes)
    initEndpointResult rfl
  refine ⟨?_, ?_, ?_, ?_, ?_⟩
  · have h := checkLoop_attempts_le expected ((List.range retries).map outcomes)
      initEndpointResult
    simpa [check_endpoint] using h
  · rcases Nat.eq_zero_or_pos retries with h0 | hpos
    · subst h0; rfl
    · have hne : (List.range retries).map outcomes ≠ [] := by
        intro hnil
        have hlen := congrArg List.length hnil
        simp at hlen
        omega
      have h := checkLoop_attempts_sleeps expected ((List.range retries).map outcomes)
        initEndpointResult hne
      unfold check_endpoint
      omega
  · rw [show check_endpoint retries expected outcomes =
        checkLoop expected ((List.range retries).map outcomes) initEndpointResult from rfl, hiff]
    simp [List.any_eq_true, List.mem_map, List.mem_range]
  · intro i hi hm
    have hget : ((List.range retries).map outcomes).get? i = some (outcomes i) := by
      rw [List.get?_map, List.get?_range hi]
      rfl
    exact checkLoop_stops_at_first expected _ initEndpointResult i (outcomes i) hget hm
  · intro hall hpos
    have hnotany : ¬ (((List.range retries).map outcomes).any (isMatch expected) = true) := by
      intro hany
      rcases List.any_eq_true.mp hany with ⟨o, ho, hmo⟩
      rcases List.mem_map.mp ho with ⟨i, hi, rfl⟩
      rw [hall i (List.mem_range.mp hi)] at hmo
      cases hmo
    constructor
    · exact Bool.eq_false_iff.mpr (fun hs => hnotany (hiff.mp hs))
    · obtain ⟨m, rfl⟩ : ∃ m, retries = m + 1 :=
        ⟨retries - 1, (Nat.succ_pred_eq_of_pos hpos).symm⟩
      have hallrest : ∀ o ∈ (List.range m).map outcomes, isMatch expected o = false := by
        intro o ho
        rcases List.mem_map.mp ho with ⟨i, hi, rfl⟩
        exact hall i (Nat.lt_succ_of_lt (List.mem_range.mp hi))
      have hlastm : isMatch expected (outcomes m) = false := hall m (Nat.lt_succ_self m)
      have h := checkLoop_error_last expected ((List.range m).map outcomes)
        initEndpointResult (outcomes m) hallrest hlastm
      rw [show check_endpoint (m + 1) expected outcomes =
          checkLoop expected ((List.range (m + 1)).map outcomes) initEndpointResult from rfl,
        List.range_succ, List.map_append]
      simpa using h

/-- Attempt environment for the C3 witness: a connection error, then a
response with the wrong status code. -/
def sampleFailOutcomes : Nat → AttemptOutcome
  | 0 => .connectionErr
  | _ => .ok 500 3

/-- Witness for C3: with 2 retries against expected status 200 where
attempt 0 hits a connection error and attempt 1 returns 500, the call
makes at most 2 attempts, fails, and records the error of the last attempt. -/
theorem check_endpoint_retry_spec_witness :
    (check_endpoint 2 200 sampleFailOutcomes).2.1 ≤ 2 ∧
    (check_endpoint 2 200 sampleFailOutcomes).1.success = false ∧
    (check_endpoint 2 200 sampleFailOutcomes).1.error =
      some ("Unexpected status code: " ++ toString 500) := by
  have h := check_endpoint_retry_spec 2 200 sampleFailOutcomes
  have hfail := h.2.2.2.2 (by decide) (by decide)
  exact ⟨h.1, hfail.1, by rw [hfail.2]; rfl⟩

/-- Attempt environment for the C8 demonstration: a connection error,
then a matching response. -/
def staleErrorOutcomes : Nat → AttemptOutcome
  | 0 => .connectionErr
  | _ => .ok 200 5

/-- C8: For every result returned by `check_endpoint`, if success is
`True` then `status_code` equals the expected_status of the endpoint; the
`error` field, however, may still hold the message of an earlier failed
attempt, since it is never reset when a later attempt succeeds (shown
at a concrete run: connection error then success leaves
`error = "Connection error"` with success `True`). -/
theorem check_endpoint_success_invariant :
    (∀ (retries expected : Nat) (outcomes : Nat → AttemptOutcome),
      (check_endpoint retries expected outcomes).1.success = true →
      (check_endpoint retries expected outcomes).1.status_code = some expected) ∧
    ((check_endpoint 2 200 staleErrorOutcomes).1.success = true ∧
     (check_endpoint 2 200 staleErrorOutcomes).1.error = some "Connection error") := by
  refine ⟨fun retries expected outcomes hs => ?_, by decide, by decide⟩
  exact checkLoop_status_of_success expected ((List.range retries).map outcomes)
    initEndpointResult rfl hs

/-- Witness for C8: instantiating the success/status invariant at the
concrete stale-error run. -/
theorem check_endpoint_success_invariant_witness :
    (check_endpoint 2 200 staleErrorOutcomes).1.status_code = some 200 :=
  check_endpoint_success_invariant.1 2 200 staleErrorOutcomes (by decide)

theorem check_resource_status_zero (rt : String) (high low req lim : Int)
    (hhigh : 0 < high) (hlow : 0 ≤ low) (hreq : 0 < req) :
    (check_resource_status rt 0 high low req lim).1 = "UNDERFLOW" ∧
    (check_resource_status rt 0 high low req lim).2.1 = 0 := by
  constructor <;>
  · unfold check_resource_status
    split_ifs <;> first | rfl | omega | simp

theorem analyzeContainer_eq (t : Thresholds) (cm : ContainerMetrics)
    (a : ContainerAnalysis) (h : analyzeContainer t cm = some a) :
    ∃ cu mu, parse_cpu_value (cm.cpu.getD ['0']) = some cu ∧
      parse_memory_value (cm.memory.getD ['0']) = some mu ∧
      a.cpu.usage = cu ∧
      a.cpu.status =
        (check_resource_status "cpu" cu t.cpu.high t.cpu.low t.cpu.request t.cpu.limit).1 ∧
      a.cpu.utilization_percentage =
        (check_resource_status "cpu" cu t.cpu.high t.cpu.low t.cpu.request t.cpu.limit).2.1 ∧
      a.memory.usage = mu ∧
      a.memory.status =
        (check_resource_status "memory" mu t.memory.high t.memory.low t.memory.request
          t.memory.limit).1 ∧
      a.memory.utilization_percentage =
        (check_resource_status "memory" mu t.memory.high t.memory.low t.memory.request
          t.memory.limit).2.1 := by
  rcases hc : parse_cpu_value (cm.cpu.getD ['0']) with _ | cu <;>
    rcases hm : parse_memory_value (cm.memory.getD ['0']) with _ | mu <;>
    rw [show analyzeContainer t cm =
        (match parse_cpu_value (cm.cpu.getD ['0']), parse_memory_value (cm.memory.getD ['0']) with
         | some cpu_usage, some memory_usage =>
           let cpu_status := check_resource_status "cpu" cpu_usage t.cpu.high t.cpu.low
             t.cpu.request t.cpu.limit
           let memory_status := check_resource_status "memory" memory_usage t.memory.high
             t.memory.low t.memory.request t.memory.limit
           some
             { cpu := { usage := cpu_usage, status := cpu_status.1,
                        utilization_percentage := cpu_status.2.1, analysis := cpu_status.2.2 },
               memory := { usage := memory_usage, status := memory_status.1,
                           utilization_percentage := memory_status.2.1,
                           analysis := memory_status.2.2 } }
         | _, _ => none) from rfl, hc, hm] at h
  · cases h
  · cases h
  · cases h
  · have ha := Option.some.inj h
    subst ha
    exact ⟨cu, mu, rfl, rfl, rfl, rfl, rfl, rfl, rfl, rfl⟩

/-- C10: A missing or empty cpu/memory metric for a container is
silently treated as zero usage, per metric: `analyze_resource_usage`
defaults absent fields to `'0'`, both parsers map the empty string and
`'0'` to 0, and under the built-in thresholds (whose low bounds are
positive) such a metric is always classified `"UNDERFLOW"` with
utilization 0%, whatever the value of the other metric of the same
container. -/
theorem default_zero_metrics_underflow (m : ContainerMetrics) :
    parse_cpu_value [] = some 0 ∧ parse_cpu_value ['0'] = some 0 ∧
    parse_memory_value [] = some 0 ∧ parse_memory_value ['0'] = some 0 ∧
    0 < builtinThresholds.cpu.low ∧ 0 < builtinThresholds.memory.low ∧
    ((m.cpu = none ∨ m.cpu = some []) → parse_cpu_value (m.cpu.getD ['0']) = some 0) ∧
    ((m.memory = none ∨ m.memory = some []) →
      parse_memory_value (m.memory.getD ['0']) = some 0) ∧
    (∀ a, analyzeContainer builtinThresholds m = some a →
      ((m.cpu = none ∨ m.cpu = some []) →
        a.cpu.usage = 0 ∧ a.cpu.status = "UNDERFLOW" ∧ a.cpu.utilization_percentage = 0) ∧
      ((m.memory = none ∨ m.memory = some []) →
        a.memory.usage = 0 ∧ a.memory.status = "UNDERFLOW" ∧
          a.memory.utilization_percentage = 0)) := by
  have hzc := check_resource_status_zero "cpu" builtinThresholds.cpu.high
    builtinThresholds.cpu.low builtinThresholds.cpu.request builtinThresholds.cpu.limit
    (by decide) (by decide) (by decide)
  have hzm := check_resource_status_zero "memory" builtinThresholds.memory.high
    builtinThresholds.memory.low builtinThresholds.memory.request builtinThresholds.memory.limit
    (by decide) (by decide) (by decide)
  have hcz : (m.cpu = none ∨ m.cpu = some []) →
      parse_cpu_value (m.cpu.getD ['0']) = some 0 := by
    rintro (hc2 | hc2) <;> rw [hc2] <;> rfl
  have hmz : (m.memory = none ∨ m.memory = some []) →
      parse_memory_value (m.memory.getD ['0']) = some 0 := by
    rintro (hm2 | hm2) <;> rw [hm2] <;> rfl
  refine ⟨rfl, parse_cpu_value_zero, rfl, rfl, by decide, by decide, hcz, hmz, fun a ha => ?_⟩
  obtain ⟨cu, mu, hcu, hmu, hu1, hs1, hp1, hu2, hs2, hp2⟩ :=
    analyzeContainer_eq builtinThresholds m a ha
  constructor
  · intro hc2
    have hc0 := hcz hc2
    rw [hcu] at hc0
    have hcu0 : cu = 0 := Option.some.inj hc0
    subst hcu0
    exact ⟨hu1, hs1.trans hzc.1, hp1.trans hzc.2⟩
  · intro hm2
    have hm0 := hmz hm2
    rw [hmu] at hm0
    have hmu0 : mu = 0 := Option.some.inj hm0
    subst hmu0
    exact ⟨hu2, hs2.trans hzm.1, hp2.trans hzm.2⟩

/-- Witness for C10 at a container whose cpu metric is absent while its
memory metric is the ordinary value `"30Mi"`: the cpu side alone is
classified UNDERFLOW at 0% utilization. -/
theorem default_zero_metrics_underflow_witness :
    (analyzeContainer builtinThresholds ⟨none, some ['3', '0', 'M', 'i']⟩).map
        (fun a => (a.cpu.usage, a.cpu.status, a.cpu.utilization_percentage)) =
      some (0, "UNDERFLOW", 0) := by
  cases h : analyzeContainer builtinThresholds ⟨none, some ['3', '0', 'M', 'i']⟩ with
  | none =>
    have hs : (analyzeContainer builtinThresholds
        ⟨none, some ['3', '0', 'M', 'i']⟩).isSome = true := rfl
    rw [h] at hs
    cases hs
  | some a =>
    have hth := ((default_zero_metrics_underflow
        ⟨none, some ['3', '0', 'M', 'i']⟩).2.2.2.2.2.2.2.2 a h).1 (Or.inl rfl)
    rw [Option.map_some', hth.1, hth.2.1, hth.2.2]

theorem nextRunAfter_eq (interval : Nat) (hpos : 0 < interval) :
    ∀ t, nextRunAfter interval t = interval * (t / interval) + interval := by
  intro t
  induction t with
  | zero => simp [nextRunAfter]
  | succ t ih =>
    by_cases hdvd : interval ∣ (t + 1)
    · have hsucc := Nat.succ_div t interval
      rw [if_pos hdvd] at hsucc
      have hmul : interval * ((t + 1) / interval) = t + 1 := Nat.mul_div_cancel' hdvd
      rw [hsucc, Nat.mul_add, Nat.mul_one] at hmul
      have hcond : interval * (t / interval) + interval ≤ t + 1 := by omega
      show (if nextRunAfter interval t ≤ t + 1 then (t + 1) + interval
            else nextRunAfter interval t) = interval * ((t + 1) / interval) + interval
      rw [ih, if_pos hcond, hsucc, Nat.mul_add, Nat.mul_one]
      omega
    · have hsucc := Nat.succ_div t interval
      rw [if_neg hdvd] at hsucc
      have hdm := Nat.div_add_mod t interval
      have hmod : t % interval < interval := Nat.mod_lt t hpos
      have hcond : ¬(interval * (t / interval) + interval ≤ t + 1) := by
        intro hle
        have heq : t + 1 = interval * (t / interval) + interval := by omega
        exact hdvd ⟨t / interval + 1, by rw [heq]; ring⟩
      show (if nextRunAfter interval t ≤ t + 1 then (t + 1) + interval
            else nextRunAfter interval t) = interval * ((t + 1) / interval) + interval
      rw [ih, if_neg hcond, hsucc]
      simp

/-- C7 (amended): repeated monitoring is driven by the `schedule`
library, not plain per-iteration polling: `main` registers exactly one
scheduled job, and with a positive interval the monitoring cycle runs
exactly at the whole-second multiples of the interval (second 0 being
the immediate first run). -/
theorem main_scheduler_driven (interval : Nat) (hpos : 0 < interval) :
    mainScheduledJobs interval ≠ [] ∧
    (∀ t, cycleRunsAt interval t = true ↔ interval ∣ t) := by
  refine ⟨by simp [mainScheduledJobs], fun t => ?_⟩
  cases t with
  | zero =>
    simp [cycleRunsAt]
  | succ t =>
    have key : interval * (t / interval) + interval ≤ t + 1 ↔ interval ∣ (t + 1) := by
      constructor
      · intro hle
        have hdm := Nat.div_add_mod t interval
        have hmod : t % interval < interval := Nat.mod_lt t hpos
        have heq : t + 1 = interval * (t / interval) + interval := by omega
        exact ⟨t / interval + 1, by rw [heq]; ring⟩
      · intro hdvd
        have hsucc := Nat.succ_div t interval
        rw [if_pos hdvd] at hsucc
        have hmul : interval * ((t + 1) / interval) = t + 1 := Nat.mul_div_cancel' hdvd
        rw [hsucc, Nat.mul_add, Nat.mul_one] at hmul
        omega
    rw [show cycleRunsAt interval (t + 1) = decide (nextRunAfter interval t ≤ t + 1) from rfl,
      nextRunAfter_eq interval hpos t]
    simp [key]

/-- Counterexample to C7 as stated: `main` (main.py line 97) registers
a job with the third-party `schedule` library — the scheduler job
registry is nonempty — and at loop second 1 (interval 30) the loop
iterates and polls `run_pending` but no monitoring cycle runs, because
the scheduled job is not yet due: cycle times are decided by the
scheduler state, not by the polling iteration itself. -/
theorem main_scheduler_counterexample :
    mainScheduledJobs 30 = [⟨30⟩] ∧ cycleRunsAt 30 1 = false := by
  exact ⟨rfl, by decide⟩

/-- Witness for C7 (amended) at interval 5: the cycle runs at seconds
0 and 5 and not at second 3. -/
theorem main_scheduler_driven_witness :
    cycleRunsAt 5 0 = true ∧ cycleRunsAt 5 5 = true ∧ cycleRunsAt 5 3 = false := by
  have h := main_scheduler_driven 5 (by decide)
  refine ⟨(h.2 0).mpr ⟨0, rfl⟩, (h.2 5).mpr ⟨1, rfl⟩, ?_⟩
  have h3 := h.2 3
  have hnd : ¬ (5 ∣ 3) := by decide
  cases hc : cycleRunsAt 5 3
  · rfl
  · exact absurd (h3.mp hc) hnd

theorem dictInsert_fresh {α : Type} (k : String) (v : α) :
    ∀ (l : List (String × α)), k ∉ l.map Prod.fst → dictInsert k v l = l ++ [(k, v)] := by
  intro l
  induction l with
  | nil => intro _; rfl
  | cons x xs ih =>
    intro h
    rcases x with ⟨k₂, v₂⟩
    have h1 : k ≠ k₂ := by
      intro hk
      exact h (by simp [hk])
    have h2 : k ∉ xs.map Prod.fst := by
      intro hk
      exact h (by simp [hk])
    simp only [dictInsert, if_neg (Ne.symm h1), ih h2, List.cons_append]

theorem analyzeContainers_keys (t : Thresholds) :
    ∀ (l : List (String × ContainerMetrics)) (acc out : List (String × ContainerAnalysis)),
      (l.map Prod.fst).Nodup → (∀ x ∈ l, x.1 ∉ acc.map Prod.fst) →
      analyzeContainers t l acc = some out →
      out.map Prod.fst = acc.map Prod.fst ++ l.map Prod.fst ∧
      (∀ x ∈ out, x ∈ acc ∨ ∃ cm, (x.1, cm) ∈ l ∧ analyzeContainer t cm = some x.2) := by
  intro l
  induction l with
  | nil =>
    intro acc out _ _ h
    have hout : acc = out := Option.some.inj h
    subst hout
    exact ⟨by simp, fun x hx => Or.inl hx⟩
  | cons hd rest ih =>
    intro acc out hnodup hdisj h
    rcases hd with ⟨name, cm⟩
    rcases han : analyzeContainer t cm with _ | a
    · rw [show analyzeContainers t ((name, cm) :: rest) acc =
          (match analyzeContainer t cm with
           | some a => analyzeContainers t rest (dictInsert name a acc)
           | none => none) from rfl, han] at h
      cases h
    · rw [show analyzeContainers t ((name, cm) :: rest) acc =
          (match analyzeContainer t cm with
           | some a => analyzeContainers t rest (dictInsert name a acc)
           | none => none) from rfl, han] at h
      have hfresh : name ∉ acc.map Prod.fst := hdisj (name, cm) (List.mem_cons_self _ _)
      have h2 : analyzeContainers t rest (dictInsert name a acc) = some out := h
      rw [dictInsert_fresh name a acc hfresh] at h2
      have hnodup2 : (rest.map Prod.fst).Nodup := by
        simpa using hnodup.of_cons
      have hname_notin : name ∉ rest.map Prod.fst := by
        have := hnodup
        simp only [List.map_cons, List.nodup_cons] at this
        exact this.1
      have hdisj2 : ∀ x ∈ rest, x.1 ∉ (acc ++ [(name, a)]).map Prod.fst := by
        intro x hx
        simp only [List.map_append, List.mem_append]
        rintro (hin | hin)
        · exact hdisj x (List.mem_cons_of_mem _ hx) hin
        · simp only [List.map_cons, List.map_nil, List.mem_singleton] at hin
          exact hname_notin (hin ▸ List.mem_map_of_mem Prod.fst hx)
      obtain ⟨hkeys, hmem⟩ := ih (acc ++ [(name, a)]) out hnodup2 hdisj2 h2
      constructor
      · rw [hkeys]
        simp
      · intro x hx
        rcases hmem x hx with hin | ⟨cm₂, hcm₂, hca₂⟩
        · rcases List.mem_append.mp hin with hin2 | hin2
          · exact Or.inl hin2
          · simp only [List.mem_singleton] at hin2
            subst hin2
            exact Or.inr ⟨cm, List.mem_cons_self _ _, han⟩
        · exact Or.inr ⟨cm₂, List.mem_cons_of_mem _ hcm₂, hca₂⟩

theorem analyzePods_keys (t : Thresholds) :
    ∀ (pods : List PodMetric) (acc out : List (String × PodResult)),
      (pods.map PodMetric.name).Nodup → (∀ p ∈ pods, p.name ∉ acc.map Prod.fst) →
      analyzePods t pods acc = some out →
      out.map Prod.fst = acc.map Prod.fst ++ pods.map PodMetric.name ∧
      (∀ x ∈ out, x ∈ acc ∨
        ∃ p ∈ pods, p.name = x.1 ∧ analyzeContainers t p.containers [] = some x.2) := by
  intro pods
  induction pods with
  | nil =>
    intro acc out _ _ h
    have hout : acc = out := Option.some.inj h
    subst hout
    exact ⟨by simp, fun x hx => Or.inl hx⟩
  | cons pod rest ih =>
    intro acc out hnodup hdisj h
    rcases han : analyzeContainers t pod.containers [] with _ | pc
    · rw [show analyzePods t (pod :: rest) acc =
          (match analyzeContainers t pod.containers [] with
           | some pc => analyzePods t rest (dictInsert pod.name pc acc)
           | none => none) from rfl, han] at h
      cases h
    · rw [show analyzePods t (pod :: rest) acc =
          (match analyzeContainers t pod.containers [] with
           | some pc => analyzePods t rest (dictInsert pod.name pc acc)
           | none => none) from rfl, han] at h
      have hfresh : pod.name ∉ acc.map Prod.fst := hdisj pod (List.mem_cons_self _ _)
      have h2 : analyzePods t rest (dictInsert pod.name pc acc) = some out := h
      rw [dictInsert_fresh pod.name pc acc hfresh] at h2
      have hnodup2 : (rest.map PodMetric.name).Nodup := by
        simpa using hnodup.of_cons
      have hname_notin : pod.name ∉ rest.map PodMetric.name := by
        have := hnodup
        simp only [List.map_cons, List.nodup_cons] at this
        exact this.1
      have hdisj2 : ∀ p ∈ rest, p.name ∉ (acc ++ [(pod.name, pc)]).map Prod.fst := by
        intro p hp
        simp only [List.map_append, List.mem_append]
        rintro (hin | hin)
        · exact hdisj p (List.mem_cons_of_mem _ hp) hin
        · simp only [List.map_cons, List.map_nil, List.mem_singleton] at hin
          exact hname_notin (hin ▸ List.mem_map_of_mem PodMetric.name hp)
      obtain ⟨hkeys, hmem⟩ := ih (acc ++ [(pod.name, pc)]) out hnodup2 hdisj2 h2
      constructor
      · rw [hkeys]
        simp
      · intro x hx
        rcases hmem x hx with hin | ⟨p, hp, hpname, hpc⟩
        · rcases List.mem_append.mp hin with hin2 | hin2
          · exact Or.inl hin2
          · simp only [List.mem_singleton] at hin2
            subst hin2
            exact Or.inr ⟨pod, List.mem_cons_self _ _, rfl, han⟩
        · exact Or.inr ⟨p, List.mem_cons_of_mem _ hp, hpname, hpc⟩

theorem check_resource_status_mem (rt : String) (usage high low req lim : Int) :
    (check_resource_status rt usage high low req lim).1 = "OVERFLOW" ∨
    (check_resource_status rt usage high low req lim).1 = "UNDERFLOW" ∨
    (check_resource_status rt usage high low req lim).1 = "NORMAL" := by
  unfold check_resource_status
  split_ifs <;> simp

theorem analyzeContainer_status (t : Thresholds) (cm : ContainerMetrics)
    (a : ContainerAnalysis) (h : analyzeContainer t cm = some a) :
    (a.cpu.status = "OVERFLOW" ∨ a.cpu.status = "UNDERFLOW" ∨ a.cpu.status = "NORMAL") ∧
    (a.memory.status = "OVERFLOW" ∨ a.memory.status = "UNDERFLOW" ∨
      a.memory.status = "NORMAL") := by
  rcases hc : parse_cpu_value (cm.cpu.getD ['0']) with _ | cu <;>
    rcases hm : parse_memory_value (cm.memory.getD ['0']) with _ | mu <;>
    rw [show analyzeContainer t cm =
        (match parse_cpu_value (cm.cpu.getD ['0']), parse_memory_value (cm.memory.getD ['0']) with
         | some cpu_usage, some memory_usage =>
           let cpu_status := check_resource_status "cpu" cpu_usage t.cpu.high t.cpu.low
             t.cpu.request t.cpu.limit
           let memory_status := check_resource_status "memory" memory_usage t.memory.high
             t.memory.low t.memory.request t.memory.limit
           some
             { cpu := { usage := cpu_usage, status := cpu_status.1,
                        utilization_percentage := cpu_status.2.1, analysis := cpu_status.2.2 },
               memory := { usage := memory_usage, status := memory_status.1,
                           utilization_percentage := memory_status.2.1,
                           analysis := memory_status.2.2 } }
         | _, _ => none) from rfl, hc, hm] at h
  · cases h
  · cases h
  · cases h
  · have ha := Option.some.inj h
    subst ha
    exact ⟨check_resource_status_mem "cpu" cu t.cpu.high t.cpu.low t.cpu.request t.cpu.limit,
      check_resource_status_mem "memory" mu t.memory.high t.memory.low t.memory.request
        t.memory.limit⟩

/-- Counterexample to C9 as stated: two input pods that share the name
`"a"` produce a `results` dict with a single entry (the second
assignment to `results["a"]` overwrites the first), not one entry per
input pod. -/
theorem analyze_duplicate_pods_counterexample :
    analyze_resource_usage builtinThresholds
        [{ name := "a", containers := [] }, { name := "a", containers := [] }] =
      some [("a", ([] : PodResult))] ∧
    ([("a", ([] : PodResult))]).length = 1 ∧
    ([{ name := "a", containers := ([] : List (String × ContainerMetrics)) },
      { name := "a", containers := [] }] : List PodMetric).length = 2 := by
  exact ⟨rfl, rfl, rfl⟩

/-- C9 (amended): For every input list of pod metrics whose pod names
are pairwise distinct (and whose per-pod container dicts have distinct
keys, as Python dicts guarantee), a successful run of
`analyze_resource_usage` returns a dict with exactly one entry per
input pod, keyed in input order, each containing exactly one analysis
per container of that pod, and every per-container cpu status and memory
status is one of `"OVERFLOW"`, `"UNDERFLOW"`, `"NORMAL"`. -/
theorem analyze_resource_usage_shape (t : Thresholds) (pods : List PodMetric)
    (res : List (String × PodResult))
    (hnames : (pods.map PodMetric.name).Nodup)
    (hcont : ∀ p ∈ pods, (p.containers.map Prod.fst).Nodup)
    (h : analyze_resource_usage t pods = some res) :
    res.map Prod.fst = pods.map PodMetric.name ∧
    res.length = pods.length ∧
    (∀ x ∈ res, ∃ p ∈ pods, p.name = x.1 ∧
      x.2.map Prod.fst = p.containers.map Prod.fst) ∧
    (∀ x ∈ res, ∀ c ∈ x.2,
      (c.2.cpu.status = "OVERFLOW" ∨ c.2.cpu.status = "UNDERFLOW" ∨
        c.2.cpu.status = "NORMAL") ∧
      (c.2.memory.status = "OVERFLOW" ∨ c.2.memory.status = "UNDERFLOW" ∨
        c.2.memory.status = "NORMAL")) := by
  obtain ⟨hkeys, hmem⟩ := analyzePods_keys t pods [] res hnames (by simp) h
  simp only [List.map_nil, List.nil_append] at hkeys
  refine ⟨hkeys, ?_, ?_, ?_⟩
  · have hlen := congrArg List.length hkeys
    simpa using hlen
  · intro x hx
    rcases hmem x hx with hacc | ⟨p, hp, hname, hpc⟩
    · cases hacc
    · obtain ⟨hk2, _⟩ := analyzeContainers_keys t p.containers [] x.2 (hcont p hp)
        (by simp) hpc
      refine ⟨p, hp, hname, ?_⟩
      simpa using hk2
  · intro x hx c hc
    rcases hmem x hx with hacc | ⟨p, hp, _, hpc⟩
    · cases hacc
    · obtain ⟨_, hmem2⟩ := analyzeContainers_keys t p.containers [] x.2 (hcont p hp)
        (by simp) hpc
      rcases hmem2 c hc with hacc2 | ⟨cm, _, hca⟩
      · cases hacc2
      · exact analyzeContainer_status t cm c.2 hca

/-- A one-pod, one-container input for the C9 witness. -/
def demoPods : List PodMetric :=
  [{ name := "a", containers := [("c1", { cpu := none, memory := none })] }]

/-- Witness for C9 (amended): on the concrete one-pod input, the
result has the pod name as its only key. -/
theorem analyze_resource_usage_shape_witness :
    (analyze_resource_usage builtinThresholds demoPods).map (List.map Prod.fst) =
      some ["a"] := by
  cases h : analyze_resource_usage builtinThresholds demoPods with
  | none =>
    have hs : (analyze_resource_usage builtinThresholds demoPods).isSome = true := rfl
    rw [h] at hs
    cases hs
  | some res =>
    have hth := analyze_resource_usage_shape builtinThresholds demoPods res
      (by decide) (by decide) h
    rw [Option.map_some', hth.1]
    rfl

end MonitoringSystem
